import Mathlib

set_option maxHeartbeats 1000000

/-!
A shallow embedding of `django_comments_xtd/templatetags/comments_xtd.py`: the
three template tags `get_xtdcomment_count`, `render_last_xtdcomments` and
`get_last_xtdcomments`, their node classes, and the helper
`_get_content_types`.

Python-level behaviour reflected here:
* `tokens[i]` raises `IndexError` when `i` is out of range;
* the module imports `TemplateSyntaxError` from `django.template`, but every
  `raise` site writes `template.TemplateSyntaxError(...)`; the name `template`
  is never bound in the module, so evaluating the raise expression raises
  `NameError` (before the message is even formatted);
* Django querysets reject negative slice bounds.
-/

deriving instance DecidableEq for Except

/-- A Django content type: a registry entry identifying a model class by its
application label and model name. -/
structure ContentType where
  app_label : String
  model : String
deriving DecidableEq

/-- A comment record: a content type reference and a free-text body.  The
comment table is modelled as a list of these, ordered most recent first (the
ordering-timestamp order of the queryset). -/
structure XtdComment where
  content_type : ContentType
  comment : String
deriving DecidableEq

/-- The Python exceptions these code paths can raise, by kind. -/
inductive PyErr where
  /-- django.template.TemplateSyntaxError (imported by the module, but raised
  nowhere: every raise site goes through the unbound name `template`). -/
  | templateSyntaxError
  /-- NameError: the named variable is not defined. -/
  | nameError (name : String)
  /-- IndexError: list index out of range. -/
  | indexError
  /-- AssertionError from Django queryset slicing with a negative bound. -/
  | assertionError
deriving DecidableEq

/-- Python list indexing `l[i]`: the element, or IndexError out of range. -/
def pyGet (l : List α) (i : Nat) : Except PyErr α :=
  match l[i]? with
  | some x => Except.ok x
  | none => Except.error PyErr.indexError

/-- Splits a character list at every character satisfying `p`, keeping empty
pieces between adjacent separators, as Python string splitting does.  `acc`
holds the piece being read, reversed. -/
def splitChars (p : Char → Bool) (acc : List Char) : List Char → List (List Char)
  | [] => [acc.reverse]
  | c :: cs =>
    if p c then acc.reverse :: splitChars p [] cs
    else splitChars p (c :: acc) cs

/-- Python `s.split()` with no argument: split on runs of whitespace,
discarding empty pieces. -/
def pySplit (s : String) : List String :=
  ((splitChars (fun c => c.isWhitespace) [] s.toList).map
    fun cs => String.mk cs).filter (fun t => t ≠ "")

/-- Python `token.split('.')`: split at every dot, keeping empty pieces. -/
def pySplitDot (s : String) : List String :=
  (splitChars (fun c => c = '.') [] s.toList).map fun cs => String.mk cs

/-- Value of a nonempty all-digit character list, else `none`. -/
def digitsVal (acc : Nat) : List Char → Option Nat
  | [] => some acc
  | c :: cs => if c.isDigit then digitsVal (acc * 10 + (c.toNat - 48)) cs else none

/-- Python `int(s)` on the decimal forms relevant here: an optional minus sign
followed by one or more digits (Python additionally strips surrounding
whitespace and accepts a plus sign); `none` models the ValueError branch. -/
def pyint (s : String) : Option Int :=
  match s.toList with
  | [] => none
  | c :: cs =>
    if c = '-' then
      match cs with
      | [] => none
      | _ => (digitsVal 0 cs).map fun n => -(n : Int)
    else (digitsVal 0 (c :: cs)).map fun n => (n : Int)

/-- Modelled from the spec: `XtdComment.objects.for_content_types` is defined
in `django_comments_xtd/models.py`, which is not among the sources; the spec
describes the tags as building filtered querysets over comments — "parse
tokens, build queryset, filter by content type" — that "fetch the most recent
comments".  With the comment table ordered most recent first, the queryset is
the sublist of comments whose content type is among the given ones. -/
def for_content_types (db : List XtdComment) (content_types : List ContentType) :
    List XtdComment :=
  db.filter fun c => content_types.contains c.content_type

/-- Django queryset slicing `qs[:count]` with a Python `int` bound: Django
rejects negative slice bounds with an assertion ("Negative indexing is not
supported"); otherwise the slice keeps the first `count` elements. -/
def qsSliceTo (l : List XtdComment) (count : Int) : Except PyErr (List XtdComment) :=
  if count < 0 then Except.error PyErr.assertionError
  else Except.ok (l.take count.toNat)

/-- A value these tags can store in a template context: a comment count from
`qs.count()` or a comment queryset. -/
inductive CtxValue where
  /-- a count of comments -/
  | int (n : Nat)
  /-- a comment queryset -/
  | comments (l : List XtdComment)
deriving DecidableEq

/-- A template context: a partial map from variable names to values. -/
abbrev Context := String → Option CtxValue

/-- Context item assignment, `context[k] = v`. -/
def Context.set (ctx : Context) (k : String) (v : CtxValue) : Context :=
  fun q => if q = k then some v else ctx q

/-- Node of the `get_xtdcomment_count` tag: its `__init__` stores the `as`
variable name and the queryset for the given content types. -/
structure XtdCommentCountNode where
  as_varname : String
  qs : List XtdComment
deriving DecidableEq

/-- Source: `context[self.as_varname] = self.qs.count()` and `return ''`. -/
def XtdCommentCountNode.render (node : XtdCommentCountNode) (ctx : Context) :
    Context × String :=
  (ctx.set node.as_varname (CtxValue.int node.qs.length), "")

/-- Node of the `render_last_xtdcomments` tag: `BaseLastXtdCommentsNode.__init__`
stores the queryset for the given content types, sliced to the first `count`
elements. -/
structure RenderLastXtdCommentsNode where
  qs : List XtdComment
deriving DecidableEq

/-- The template search list built for one comment in
`RenderLastXtdCommentsNode.render`. -/
def template_search_list (c : XtdComment) : List String :=
  ["django_comments_xtd/" ++ c.content_type.app_label ++ "/" ++
      c.content_type.model ++ "/comment.html",
    "django_comments_xtd/" ++ c.content_type.app_label ++ "/comment.html",
    "django_comments_xtd/comment.html"]

/-- Source: for each comment of the queryset, in order, render it through
`loader.render_to_string` with the nested template search list, and join the
pieces.  The framework loader is abstracted as the function argument. -/
def RenderLastXtdCommentsNode.render
    (loader : List String → XtdComment → Context → String)
    (node : RenderLastXtdCommentsNode) (ctx : Context) : String :=
  String.join (node.qs.map fun c => loader (template_search_list c) c ctx)

/-- Node of the `get_last_xtdcomments` tag: the sliced queryset plus the `as`
variable name. -/
structure GetLastXtdCommentsNode where
  as_varname : String
  qs : List XtdComment
deriving DecidableEq

/-- Source: `context[self.as_varname] = self.qs` and `return ''`. -/
def GetLastXtdCommentsNode.render (node : GetLastXtdCommentsNode) (ctx : Context) :
    Context × String :=
  (ctx.set node.as_varname (CtxValue.comments node.qs), "")

/-- Source `_get_content_types`: for each token in order, unpack
`token.split('.')` into `app, model` (any number of pieces other than two is a
ValueError, answered by raising through the unbound name `template`, hence
NameError), look the pair up in the content-type registry (a
`ContentType.DoesNotExist` likewise ends in NameError), and collect the found
content types in input order. -/
def _get_content_types (registry : List ContentType) :
    List String → Except PyErr (List ContentType)
  | [] => Except.ok []
  | token :: rest =>
    match pySplitDot token with
    | [app, model] =>
      match registry.find? (fun ct => ct.app_label == app && ct.model == model) with
      | some ct =>
        match _get_content_types registry rest with
        | Except.ok cts => Except.ok (ct :: cts)
        | Except.error e => Except.error e
      | none => Except.error (PyErr.nameError "template")
    | _ => Except.error (PyErr.nameError "template")

/-- The content type a single token resolves to, when it is a well-formed
`app.model` pair naming a registered content type. -/
def lookupToken (registry : List ContentType) (t : String) : Option ContentType :=
  match pySplitDot t with
  | [app, model] => registry.find? fun ct => ct.app_label == app && ct.model == model
  | _ => none

/-- Decides whether a token is a well-formed `app.model` pair naming a
registered content type. -/
def tokenValid (registry : List ContentType) (t : String) : Bool :=
  (lookupToken registry t).isSome

/-- Source `get_xtdcomment_count`: split the tag contents, require `tokens[1] =
"as"` and `tokens[3] = "for"` (each failed check raises through the unbound
name `template`: NameError), take `tokens[2]` as the variable name, resolve
`tokens[4:]` to content types, and build the node, whose `__init__` stores the
queryset for those content types. -/
def get_xtdcomment_count (registry : List ContentType) (db : List XtdComment)
    (contents : String) : Except PyErr XtdCommentCountNode :=
  match pyGet (pySplit contents) 1 with
  | Except.error e => Except.error e
  | Except.ok t1 =>
    if t1 ≠ "as" then Except.error (PyErr.nameError "template")
    else
      match pyGet (pySplit contents) 2 with
      | Except.error e => Except.error e
      | Except.ok as_varname =>
        match pyGet (pySplit contents) 3 with
        | Except.error e => Except.error e
        | Except.ok t3 =>
          if t3 ≠ "for" then Except.error (PyErr.nameError "template")
          else
            match _get_content_types registry ((pySplit contents).drop 4) with
            | Except.error e => Except.error e
            | Except.ok content_types =>
              Except.ok ⟨as_varname, for_content_types db content_types⟩

/-- Source `render_last_xtdcomments`: split the tag contents, parse `tokens[1]`
as an integer (a ValueError is answered by raising through the unbound name
`template`: NameError), require `tokens[2] = "for"`, resolve `tokens[3:]` to
content types, and build the node, whose base `__init__` stores the queryset
sliced to the first `count` comments. -/
def render_last_xtdcomments (registry : List ContentType) (db : List XtdComment)
    (contents : String) : Except PyErr RenderLastXtdCommentsNode :=
  match pyGet (pySplit contents) 1 with
  | Except.error e => Except.error e
  | Except.ok t1 =>
    match pyint t1 with
    | none => Except.error (PyErr.nameError "template")
    | some count =>
      match pyGet (pySplit contents) 2 with
      | Except.error e => Except.error e
      | Except.ok t2 =>
        if t2 ≠ "for" then Except.error (PyErr.nameError "template")
        else
          match _get_content_types registry ((pySplit contents).drop 3) with
          | Except.error e => Except.error e
          | Except.ok content_types =>
            match qsSliceTo (for_content_types db content_types) count with
            | Except.error e => Except.error e
            | Except.ok qs => Except.ok ⟨qs⟩

/-- Source `get_last_xtdcomments`: split the tag contents, parse `tokens[1]` as
an integer, require `tokens[2] = "as"`, take `tokens[3]` as the variable name,
require `tokens[4] = "for"` (every failed check raises through the unbound name
`template`: NameError), resolve `tokens[5:]` to content types, and build the
node with the sliced queryset. -/
def get_last_xtdcomments (registry : List ContentType) (db : List XtdComment)
    (contents : String) : Except PyErr GetLastXtdCommentsNode :=
  match pyGet (pySplit contents) 1 with
  | Except.error e => Except.error e
  | Except.ok t1 =>
    match pyint t1 with
    | none => Except.error (PyErr.nameError "template")
    | some count =>
      match pyGet (pySplit contents) 2 with
      | Except.error e => Except.error e
      | Except.ok t2 =>
        if t2 ≠ "as" then Except.error (PyErr.nameError "template")
        else
          match pyGet (pySplit contents) 3 with
          | Except.error e => Except.error e
          | Except.ok as_varname =>
            match pyGet (pySplit contents) 4 with
            | Except.error e => Except.error e
            | Except.ok t4 =>
              if t4 ≠ "for" then Except.error (PyErr.nameError "template")
              else
                match _get_content_types registry ((pySplit contents).drop 5) with
                | Except.error e => Except.error e
                | Except.ok content_types =>
                  match qsSliceTo (for_content_types db content_types) count with
                  | Except.error e => Except.error e
                  | Except.ok qs => Except.ok ⟨as_varname, qs⟩

/-- The message the source formats at the `tokens[1]` check of
`get_xtdcomment_count` (line 42): `"2nd. argument in %r tag must be 'for'"`,
with the tag name substituted for `%r` (Python `repr` of a plain string wraps
it in single quotes).  The check itself requires the token to be `"as"`. -/
def get_xtdcomment_count_arg2_message (tag : String) : String :=
  "2nd. argument in \x27" ++ tag ++ "\x27 tag must be \x27for\x27"

/-- Fixture: a content-type registry with two registered models. -/
def reg0 : List ContentType := [⟨"blog", "story"⟩, ⟨"blog", "quote"⟩]

/-- Fixture: a comment table, most recent first. -/
def db0 : List XtdComment :=
  [⟨⟨"blog", "story"⟩, "newest"⟩, ⟨⟨"blog", "quote"⟩, "mid"⟩,
    ⟨⟨"sites", "site"⟩, "other"⟩, ⟨⟨"blog", "story"⟩, "oldest"⟩]

/-- Fixture: the empty template context. -/
def ctx0 : Context := fun _ => none

/-- Fixture: a concrete template loader. -/
def loader0 : List String → XtdComment → Context → String :=
  fun ts c _ => String.intercalate "|" ts ++ ":" ++ c.comment

/-- Fixture: the content types named by the token list `["blog.story"]`. -/
def cts1 : List ContentType := [⟨"blog", "story"⟩]

/-- Fixture: the content types named by `["blog.story", "blog.quote"]`. -/
def cts2 : List ContentType := [⟨"blog", "story"⟩, ⟨"blog", "quote"⟩]

/-- Fixture: the node parsed from
`get_xtdcomment_count as cnt for blog.story` over `reg0` and `db0`. -/
def node1 : XtdCommentCountNode :=
  ⟨"cnt", [⟨⟨"blog", "story"⟩, "newest"⟩, ⟨⟨"blog", "story"⟩, "oldest"⟩]⟩

/-- Fixture: the node parsed from
`get_last_xtdcomments 1 as latest for blog.story blog.quote` over `reg0` and
`db0`. -/
def node2 : GetLastXtdCommentsNode :=
  ⟨"latest", [⟨⟨"blog", "story"⟩, "newest"⟩]⟩

/-- Fixture: the node parsed from
`render_last_xtdcomments 2 for blog.story` over `reg0` and `db0`. -/
def node3 : RenderLastXtdCommentsNode :=
  ⟨[⟨⟨"blog", "story"⟩, "newest"⟩, ⟨⟨"blog", "story"⟩, "oldest"⟩]⟩

theorem pyGet_ok {α : Type} {l : List α} {i : Nat} {x : α}
    (h : pyGet l i = Except.ok x) : l[i]? = some x := by
  unfold pyGet at h
  split at h
  · next heq => rw [heq]; injection h with h; rw [h]
  · exact absurd h (by simp)

theorem length_filterMap_of_isSome {α β : Type} (f : α → Option β) :
    ∀ l : List α, (∀ x ∈ l, (f x).isSome = true) →
    (l.filterMap f).length = l.length := by
  intro l
  induction l with
  | nil => intro _; rfl
  | cons a l ih =>
    intro h
    obtain ⟨b, hb⟩ := Option.isSome_iff_exists.mp (h a (List.mem_cons_self a l))
    rw [List.filterMap_cons, hb, List.length_cons,
      ih fun x hx => h x (List.mem_cons_of_mem a hx), List.length_cons]

theorem gct_ok_of_valid (registry : List ContentType) :
    ∀ tokens : List String, (∀ t ∈ tokens, tokenValid registry t = true) →
    _get_content_types registry tokens
      = Except.ok (tokens.filterMap (lookupToken registry)) := by
  intro tokens
  induction tokens with
  | nil => intro _; rfl
  | cons t rest ih =>
    intro h
    have ht : (lookupToken registry t).isSome = true := h t (List.mem_cons_self t rest)
    obtain ⟨ct, hct⟩ := Option.isSome_iff_exists.mp ht
    have hrest := ih fun x hx => h x (List.mem_cons_of_mem t hx)
    rw [List.filterMap_cons, hct]
    have hsplit2 : ∃ app model, pySplitDot t = [app, model] ∧
        registry.find? (fun c => c.app_label == app && c.model == model) = some ct := by
      unfold lookupToken at hct
      split at hct
      · next app model heq => exact ⟨app, model, heq, hct⟩
      · exact absurd hct (by simp)
    obtain ⟨app, model, heq, hfind⟩ := hsplit2
    unfold _get_content_types
    rw [heq]
    simp only [hfind, hrest]

theorem gct_error_of_invalid (registry : List ContentType) (bad : String)
    (hbad : tokenValid registry bad = false) :
    ∀ (pre rest : List String), (∀ t ∈ pre, tokenValid registry t = true) →
    _get_content_types registry (pre ++ bad :: rest)
      = Except.error (PyErr.nameError "template") := by
  intro pre
  induction pre with
  | nil =>
    intro rest _
    have hb : lookupToken registry bad = none := by
      cases hl : lookupToken registry bad with
      | none => rfl
      | some ct => rw [tokenValid, hl] at hbad; simp at hbad
    rw [List.nil_append]
    unfold _get_content_types
    cases hsplit : pySplitDot bad with
    | nil => rfl
    | cons a l =>
      cases l with
      | nil => rfl
      | cons b l2 =>
        cases l2 with
        | nil =>
          have hfind :
              List.find? (fun ct => ct.app_label == a && ct.model == b) registry = none := by
            unfold lookupToken at hb
            rw [hsplit] at hb
            exact hb
          dsimp only
          rw [hfind]
        | cons c l3 => rfl
  | cons t pre ih =>
    intro rest h
    have ht : (lookupToken registry t).isSome = true := h t (List.mem_cons_self t pre)
    obtain ⟨ct, hct⟩ := Option.isSome_iff_exists.mp ht
    have hsplit2 : ∃ app model, pySplitDot t = [app, model] ∧
        registry.find? (fun c => c.app_label == app && c.model == model) = some ct := by
      unfold lookupToken at hct
      split at hct
      · next app model heq => exact ⟨app, model, heq, hct⟩
      · exact absurd hct (by simp)
    obtain ⟨app, model, heq, hfind⟩ := hsplit2
    have hrec := ih rest (fun x hx => h x (List.mem_cons_of_mem t hx))
    rw [List.cons_append]
    unfold _get_content_types
    rw [heq]
    dsimp only
    rw [hfind, hrec]

/-- C2: the claim says malformed invocations (wrong `as`/`for` keyword tokens,
or a non-integer count token) raise TemplateSyntaxError and nothing else.  On
the code, every such invocation raises through the unbound module name
`template`, i.e. a NameError — not a TemplateSyntaxError — a slip against the
clear intent, since `TemplateSyntaxError` itself is imported and never used. -/
theorem malformed_invocations_raise_name_error :
    get_xtdcomment_count reg0 db0 "get_xtdcomment_count of cnt for blog.story"
      = Except.error (PyErr.nameError "template")
    ∧ get_xtdcomment_count reg0 db0 "get_xtdcomment_count as cnt with blog.story"
      = Except.error (PyErr.nameError "template")
    ∧ render_last_xtdcomments reg0 db0 "render_last_xtdcomments five for blog.story"
      = Except.error (PyErr.nameError "template")
    ∧ render_last_xtdcomments reg0 db0 "render_last_xtdcomments 5 with blog.story"
      = Except.error (PyErr.nameError "template")
    ∧ get_last_xtdcomments reg0 db0 "get_last_xtdcomments five as latest for blog.story"
      = Except.error (PyErr.nameError "template")
    ∧ get_last_xtdcomments reg0 db0 "get_last_xtdcomments 5 of latest for blog.story"
      = Except.error (PyErr.nameError "template")
    ∧ get_last_xtdcomments reg0 db0 "get_last_xtdcomments 5 as latest with blog.story"
      = Except.error (PyErr.nameError "template")
    ∧ PyErr.nameError "template" ≠ PyErr.templateSyntaxError := by decide

/-- C3: the claim says a token that does not split into an `app.model` pair,
or that names an unregistered content type, makes `_get_content_types` raise a
TemplateSyntaxError.  On the code, all three shapes of bad token raise through
the unbound name `template`: a NameError, not a TemplateSyntaxError. -/
theorem content_type_errors_raise_name_error :
    _get_content_types reg0 ["nodot"] = Except.error (PyErr.nameError "template")
    ∧ _get_content_types reg0 ["a.b.c"] = Except.error (PyErr.nameError "template")
    ∧ _get_content_types reg0 ["foo.bar"] = Except.error (PyErr.nameError "template")
    ∧ PyErr.nameError "template" ≠ PyErr.templateSyntaxError := by decide

/-- C6: the claim says the message for a wrong second token of
`get_xtdcomment_count` states that the second argument must be `as`.  The
message literal the source formats at that check says the argument must be
`for` (while the check itself compares against `as`), and the raise never even
delivers it: evaluating `template.TemplateSyntaxError` raises NameError first. -/
theorem arg2_message_names_wrong_keyword :
    get_xtdcomment_count_arg2_message "get_xtdcomment_count"
      = "2nd. argument in \x27get_xtdcomment_count\x27 tag must be \x27for\x27"
    ∧ get_xtdcomment_count reg0 db0 "get_xtdcomment_count of cnt for blog.story"
      = Except.error (PyErr.nameError "template") :=
  ⟨rfl, by decide⟩

/-- C8: invocations with fewer whitespace-separated tokens than the parsers
index — here the bare tag names, and `get_last_xtdcomments` with only a count —
fail with IndexError from the unchecked `tokens[i]` indexing, not with a
TemplateSyntaxError. -/
theorem short_invocations_raise_index_error :
    get_xtdcomment_count reg0 db0 "get_xtdcomment_count" = Except.error PyErr.indexError
    ∧ render_last_xtdcomments reg0 db0 "render_last_xtdcomments"
      = Except.error PyErr.indexError
    ∧ get_last_xtdcomments reg0 db0 "get_last_xtdcomments 5"
      = Except.error PyErr.indexError
    ∧ PyErr.indexError ≠ PyErr.templateSyntaxError := by decide

/-- C9: rendering an XtdCommentCountNode or a GetLastXtdCommentsNode changes
only the context entry named by the node's as_varname — every other entry is
returned unchanged — and the rendered string is empty. -/
theorem render_touches_only_its_variable
    (n1 : XtdCommentCountNode) (n2 : GetLastXtdCommentsNode) (ctx : Context)
    (k : String) (h1 : k ≠ n1.as_varname) (h2 : k ≠ n2.as_varname) :
    ((n1.render ctx).1 k = ctx k ∧ (n1.render ctx).2 = "")
    ∧ ((n2.render ctx).1 k = ctx k ∧ (n2.render ctx).2 = "") := by
  refine ⟨⟨?_, rfl⟩, ⟨?_, rfl⟩⟩
  · simp [XtdCommentCountNode.render, Context.set, h1]
  · simp [GetLastXtdCommentsNode.render, Context.set, h2]

/-- Witness for C9 at concrete nodes, a concrete context and the key "other". -/
theorem render_touches_only_its_variable_witness :
    ((node1.render ctx0).1 "other" = ctx0 "other" ∧ (node1.render ctx0).2 = "")
    ∧ ((node2.render ctx0).1 "other" = ctx0 "other" ∧ (node2.render ctx0).2 = "") :=
  render_touches_only_its_variable node1 node2 ctx0 "other" (by decide) (by decide)

/-- C10: when every token splits into an `app.model` pair naming a registered
content type, `_get_content_types` succeeds and returns exactly one content
type per input token — the one each token resolves to — in input order. -/
theorem get_content_types_one_per_token
    (registry : List ContentType) (tokens : List String)
    (h : ∀ t ∈ tokens, tokenValid registry t = true) :
    _get_content_types registry tokens
      = Except.ok (tokens.filterMap (lookupToken registry))
    ∧ (tokens.filterMap (lookupToken registry)).length = tokens.length :=
  ⟨gct_ok_of_valid registry tokens h,
    length_filterMap_of_isSome (lookupToken registry) tokens
      (fun x hx => h x hx)⟩

/-- Witness for C10 on the registry reg0 and the token list
["blog.story", "blog.quote"]. -/
theorem get_content_types_one_per_token_witness :
    _get_content_types reg0 ["blog.story", "blog.quote"]
      = Except.ok (["blog.story", "blog.quote"].filterMap (lookupToken reg0))
    ∧ (["blog.story", "blog.quote"].filterMap (lookupToken reg0)).length
      = (["blog.story", "blog.quote"] : List String).length :=
  get_content_types_one_per_token reg0 ["blog.story", "blog.quote"] (by decide)

/-- C1: for every successfully parsed `get_xtdcomment_count` tag, rendering the
resulting node sets the context variable named by the `as` clause (the third
token of the tag) to the number of comments whose content type is among the
content types named by the tag, and the render call returns the empty string. -/
theorem get_xtdcomment_count_render_sets_count
    (registry : List ContentType) (db : List XtdComment) (contents : String)
    (cts : List ContentType) (node : XtdCommentCountNode) (ctx : Context)
    (hp : get_xtdcomment_count registry db contents = Except.ok node)
    (hc : _get_content_types registry ((pySplit contents).drop 4) = Except.ok cts) :
    (pySplit contents)[2]? = some node.as_varname
    ∧ node.render ctx
      = (ctx.set node.as_varname
          (CtxValue.int (db.countP fun c => cts.contains c.content_type)), "") := by
  unfold get_xtdcomment_count at hp
  split at hp
  next => exact absurd hp (by simp)
  next t1 heq1 =>
  split at hp
  next => exact absurd hp (by simp)
  next hne1 =>
  split at hp
  next => exact absurd hp (by simp)
  next varname heq2 =>
  split at hp
  next => exact absurd hp (by simp)
  next t3 heq3 =>
  split at hp
  next => exact absurd hp (by simp)
  next hne3 =>
  split at hp
  next => exact absurd hp (by simp)
  next content_types heq4 =>
  rw [heq4] at hc
  injection hc with hcts
  subst hcts
  injection hp with hnode
  subst hnode
  refine ⟨pyGet_ok heq2, ?_⟩
  unfold XtdCommentCountNode.render for_content_types
  rw [List.countP_eq_length_filter]

/-- Witness for C1: the tag `get_xtdcomment_count as cnt for blog.story` over
the fixture registry and database parses to node1, and rendering it stores the
count of blog.story comments under "cnt". -/
theorem get_xtdcomment_count_render_sets_count_witness :
    (pySplit "get_xtdcomment_count as cnt for blog.story")[2]? = some node1.as_varname
    ∧ node1.render ctx0
      = (ctx0.set node1.as_varname
          (CtxValue.int (db0.countP fun c => cts1.contains c.content_type)), "") :=
  get_xtdcomment_count_render_sets_count reg0 db0
    "get_xtdcomment_count as cnt for blog.story" cts1 node1 ctx0
    (by decide) (by decide)

/-- C5: for every successfully parsed `get_last_xtdcomments` tag with count N,
the parsed count is non-negative, rendering sets the context variable named by
the `as` clause (the fourth token) to the queryset of the most recent comments
of the named content types sliced to the first N, which has at most N
elements, and returns the empty string. -/
theorem get_last_xtdcomments_sets_variable
    (registry : List ContentType) (db : List XtdComment) (contents : String)
    (cts : List ContentType) (t1 : String) (count : Int)
    (node : GetLastXtdCommentsNode) (ctx : Context)
    (hp : get_last_xtdcomments registry db contents = Except.ok node)
    (ht : (pySplit contents)[1]? = some t1)
    (hi : pyint t1 = some count)
    (hc : _get_content_types registry ((pySplit contents).drop 5) = Except.ok cts) :
    0 ≤ count
    ∧ (pySplit contents)[3]? = some node.as_varname
    ∧ node.qs = (for_content_types db cts).take count.toNat
    ∧ node.qs.length ≤ count.toNat
    ∧ node.render ctx = (ctx.set node.as_varname (CtxValue.comments node.qs), "") := by
  unfold get_last_xtdcomments at hp
  split at hp
  next => exact absurd hp (by simp)
  next t1x heq1 =>
  have ht1 : t1x = t1 := by
    have hx := pyGet_ok heq1
    rw [ht] at hx
    injection hx with hx
    exact hx.symm
  split at hp
  next => exact absurd hp (by simp)
  next cnt hieq =>
  rw [ht1, hi] at hieq
  injection hieq with hcnt
  subst hcnt
  split at hp
  next => exact absurd hp (by simp)
  next t2 heq2 =>
  split at hp
  next => exact absurd hp (by simp)
  next hne2 =>
  split at hp
  next => exact absurd hp (by simp)
  next varname heq3 =>
  split at hp
  next => exact absurd hp (by simp)
  next t4 heq4 =>
  split at hp
  next => exact absurd hp (by simp)
  next hne4 =>
  split at hp
  next => exact absurd hp (by simp)
  next content_types heq5 =>
  rw [heq5] at hc
  injection hc with hcts
  subst hcts
  split at hp
  next => exact absurd hp (by simp)
  next qs heq6 =>
  injection hp with hnode
  subst hnode
  have hq : ¬ count < 0 ∧ qs = (for_content_types db content_types).take count.toNat := by
    unfold qsSliceTo at heq6
    split at heq6
    · exact absurd heq6 (by simp)
    · next hneg =>
      refine ⟨hneg, ?_⟩
      injection heq6 with hx
      exact hx.symm
  obtain ⟨hneg, hqs⟩ := hq
  subst hqs
  exact ⟨Int.not_lt.mp hneg, pyGet_ok heq3, rfl, List.length_take_le _ _, rfl⟩

/-- Witness for C5: `get_last_xtdcomments 1 as latest for blog.story blog.quote`
over the fixtures parses to node2, whose queryset is the single most recent
matching comment. -/
theorem get_last_xtdcomments_sets_variable_witness :
    0 ≤ (1 : Int)
    ∧ (pySplit "get_last_xtdcomments 1 as latest for blog.story blog.quote")[3]?
      = some node2.as_varname
    ∧ node2.qs = (for_content_types db0 cts2).take (1 : Int).toNat
    ∧ node2.qs.length ≤ (1 : Int).toNat
    ∧ node2.render ctx0 = (ctx0.set node2.as_varname (CtxValue.comments node2.qs), "") :=
  get_last_xtdcomments_sets_variable reg0 db0
    "get_last_xtdcomments 1 as latest for blog.story blog.quote"
    cts2 "1" 1 node2 ctx0 (by decide) (by decide) (by decide) (by decide)

/-- C4: for every successfully parsed `render_last_xtdcomments` tag with count
N, rendering returns the concatenation, in queryset order, of rendering each of
the first N comments of the named content types through the template loader,
each looked up with the nested search list [app/model-specific template,
app-specific template, generic comment template]. -/
theorem render_last_xtdcomments_concatenates
    (registry : List ContentType) (db : List XtdComment) (contents : String)
    (cts : List ContentType) (t1 : String) (count : Int)
    (node : RenderLastXtdCommentsNode)
    (loader : List String → XtdComment → Context → String) (ctx : Context)
    (hp : render_last_xtdcomments registry db contents = Except.ok node)
    (ht : (pySplit contents)[1]? = some t1)
    (hi : pyint t1 = some count)
    (hc : _get_content_types registry ((pySplit contents).drop 3) = Except.ok cts) :
    node.render loader ctx
      = String.join (((for_content_types db cts).take count.toNat).map
          fun c => loader
            ["django_comments_xtd/" ++ c.content_type.app_label ++ "/"
                ++ c.content_type.model ++ "/comment.html",
              "django_comments_xtd/" ++ c.content_type.app_label ++ "/comment.html",
              "django_comments_xtd/comment.html"] c ctx) := by
  unfold render_last_xtdcomments at hp
  split at hp
  next => exact absurd hp (by simp)
  next t1x heq1 =>
  have ht1 : t1x = t1 := by
    have hx := pyGet_ok heq1
    rw [ht] at hx
    injection hx with hx
    exact hx.symm
  split at hp
  next => exact absurd hp (by simp)
  next cnt hieq =>
  rw [ht1, hi] at hieq
  injection hieq with hcnt
  subst hcnt
  split at hp
  next => exact absurd hp (by simp)
  next t2 heq2 =>
  split at hp
  next => exact absurd hp (by simp)
  next hne2 =>
  split at hp
  next => exact absurd hp (by simp)
  next content_types heq3 =>
  rw [heq3] at hc
  injection hc with hcts
  subst hcts
  split at hp
  next => exact absurd hp (by simp)
  next qs heq4 =>
  injection hp with hnode
  subst hnode
  have hq : qs = (for_content_types db content_types).take count.toNat := by
    unfold qsSliceTo at heq4
    split at heq4
    · exact absurd heq4 (by simp)
    · injection heq4 with hx
      exact hx.symm
  subst hq
  rfl

/-- Witness for C4: `render_last_xtdcomments 2 for blog.story` over the
fixtures parses to node3, and rendering it joins the loader output for the two
blog.story comments, newest first. -/
theorem render_last_xtdcomments_concatenates_witness :
    node3.render loader0 ctx0
      = String.join (((for_content_types db0 cts1).take (2 : Int).toNat).map
          fun c => loader0
            ["django_comments_xtd/" ++ c.content_type.app_label ++ "/"
                ++ c.content_type.model ++ "/comment.html",
              "django_comments_xtd/" ++ c.content_type.app_label ++ "/comment.html",
              "django_comments_xtd/comment.html"] c ctx0) :=
  render_last_xtdcomments_concatenates reg0 db0
    "render_last_xtdcomments 2 for blog.story" cts1 "2" 2 node3 loader0 ctx0
    (by decide) (by decide) (by decide) (by decide)

/-- C7: when the content-type token list of a tag has a first invalid token,
`_get_content_types` stops there with an error — the same error whatever
follows the invalid token, so later tokens are never retried — and the tag
parser returns no node at all. -/
theorem invalid_token_aborts_parse
    (registry : List ContentType) (db : List XtdComment) (contents : String)
    (pre : List String) (bad : String) (rest : List String)
    (node : XtdCommentCountNode)
    (hsplit : (pySplit contents).drop 4 = pre ++ bad :: rest)
    (hpre : ∀ t ∈ pre, tokenValid registry t = true)
    (hbad : tokenValid registry bad = false) :
    _get_content_types registry (pre ++ bad :: rest)
      = Except.error (PyErr.nameError "template")
    ∧ _get_content_types registry (pre ++ bad :: ([] : List String))
      = Except.error (PyErr.nameError "template")
    ∧ get_xtdcomment_count registry db contents ≠ Except.ok node := by
  have h1 := gct_error_of_invalid registry bad hbad pre rest hpre
  have h2 := gct_error_of_invalid registry bad hbad pre [] hpre
  refine ⟨h1, h2, ?_⟩
  intro hok
  unfold get_xtdcomment_count at hok
  split at hok
  next => exact absurd hok (by simp)
  next t1 heq1 =>
  split at hok
  next => exact absurd hok (by simp)
  next hne1 =>
  split at hok
  next => exact absurd hok (by simp)
  next varname heq2 =>
  split at hok
  next => exact absurd hok (by simp)
  next t3 heq3 =>
  split at hok
  next => exact absurd hok (by simp)
  next hne3 =>
  split at hok
  next => exact absurd hok (by simp)
  next content_types heq4 =>
  rw [hsplit, h1] at heq4
  exact absurd heq4 (by simp)

/-- Witness for C7: in
`get_xtdcomment_count as cnt for blog.story nope blog.quote` the token `nope`
is invalid; resolution fails there with NameError whatever follows, and the
parse returns no node. -/
theorem invalid_token_aborts_parse_witness :
    _get_content_types reg0 (["blog.story"] ++ "nope" :: ["blog.quote"])
      = Except.error (PyErr.nameError "template")
    ∧ _get_content_types reg0 (["blog.story"] ++ "nope" :: ([] : List String))
      = Except.error (PyErr.nameError "template")
    ∧ get_xtdcomment_count reg0 db0
        "get_xtdcomment_count as cnt for blog.story nope blog.quote"
      ≠ Except.ok node1 :=
  invalid_token_aborts_parse reg0 db0
    "get_xtdcomment_count as cnt for blog.story nope blog.quote"
    ["blog.story"] "nope" ["blog.quote"] node1 (by decide) (by decide) (by decide)
